import Mathlib

/-!
Shallow embedding of the `noai` repository: an agent loop (`src/main.py`)
driving four sandboxed filesystem tools and their dispatcher
(`src/functions/functions.py`).

Modelling conventions:

* POSIX paths are modelled as lists of components.  An absolute normalized
  path (the output of `os.path.abspath`) is a `List String` containing no
  `""`, `"."` or `".."` component; the root `/` is `[]`.  A caller-supplied
  path string is a `PyPath`: its raw `/`-separated components plus a flag
  recording whether the string started with `/`.
* The filesystem is a finite association list from absolute normalized
  paths to entries: a regular file with its text content, a directory with
  its `st_size`, a symbolic link with its target, or a special file (FIFO,
  device node).  Files hold decoded text; their on-disk size is the length
  of the UTF-8 encoding of that text.
* `os.path.abspath` normalizes but does not resolve symlinks; `FS.resolve`
  (with the usual symlink-following fuel) models what the `stat` based
  predicates `os.path.isfile` / `os.path.isdir` / `os.path.exists` /
  `os.path.getsize` see, and `FS.realpath` models canonical
  (symlink-resolved) resolution.
* Exception messages produced by library calls are modelled by fixed
  rendering functions; the claims depend on the presence and routing of the
  exceptions, not on their exact wording.
-/

/-- A caller-supplied path string: `isAbs` records a leading `/`, `comps`
are the `/`-separated components (which may contain `""`, `"."`, `".."`). -/
structure PyPath where
  isAbs : Bool
  comps : List String
  deriving DecidableEq, Repr

/-- Reconstruct the original path string from its components (the inverse
of splitting on `/`). -/
def renderPath (p : PyPath) : String :=
  (if p.isAbs then "/" else "") ++ String.intercalate "/" p.comps

/-- Render an absolute normalized path as a string. -/
def renderAbs (q : List String) : String :=
  "/" ++ String.intercalate "/" q

/-- One step of `os.path.normpath`: skip `""` and `"."`, pop on `".."`
(at the root, `".."` is dropped), push anything else. -/
def normStep (acc : List String) (c : String) : List String :=
  if c = "" ∨ c = "." then acc
  else if c = ".." then acc.dropLast
  else acc ++ [c]

/-- `os.path.abspath(os.path.join(wd, p))` for an already absolute and
normalized `wd`: an absolute `p` discards `wd` (`os.path.join` semantics),
then components are normalized left to right. -/
def normJoin (wd : List String) (p : PyPath) : List String :=
  p.comps.foldl normStep (if p.isAbs then [] else wd)

/-- `os.path.commonpath [a, b]` on absolute normalized paths: the longest
common component prefix. -/
def commonpath2 : List String → List String → List String
  | a :: as, b :: bs => if a = b then a :: commonpath2 as bs else []
  | _, _ => []

/-- The containment check shared by all four tools:
`os.path.commonpath([target, abs_work_directory]) == abs_work_directory`. -/
def inWorkDir (wd target : List String) : Bool :=
  decide (commonpath2 target wd = wd)

/-- One filesystem object. -/
inductive Entry
  | file (content : String)
  | dir (size : Nat)
  | symlink (target : List String)
  | special (size : Nat)
  deriving DecidableEq, Repr

/-- A filesystem: a finite map (association list) from absolute normalized
paths to entries. -/
abbrev FS := List (List String × Entry)

def FS.lookup (fs : FS) (q : List String) : Option Entry :=
  (List.find? (fun kv => decide (kv.1 = q)) fs).map Prod.snd

/-- Follow (leaf) symbolic links, with fuel, as `stat` does; returns the
final path and entry. -/
def FS.resolve (fs : FS) : Nat → List String → Option (List String × Entry)
  | 0, _ => none
  | fuel + 1, q =>
    match FS.lookup fs q with
    | some (Entry.symlink t) => FS.resolve fs fuel t
    | some e => some (q, e)
    | none => none

/-- Maximum symlink-following depth (models the OS `ELOOP` limit). -/
def linkFuel : Nat := 40

/-- `os.path.isfile`: follows symlinks, true exactly for regular files. -/
def FS.isfile (fs : FS) (q : List String) : Bool :=
  match FS.resolve fs linkFuel q with
  | some (_, Entry.file _) => true
  | _ => false

/-- `os.path.isdir`: follows symlinks, true exactly for directories. -/
def FS.isdir (fs : FS) (q : List String) : Bool :=
  match FS.resolve fs linkFuel q with
  | some (_, Entry.dir _) => true
  | _ => false

/-- `os.path.exists`: follows symlinks (false on a broken link). -/
def FS.existsb (fs : FS) (q : List String) : Bool :=
  (FS.resolve fs linkFuel q).isSome

/-- Byte length of the UTF-8 encoding of a text file. -/
def strBytes (s : String) : Nat :=
  (s.data.map Char.utf8Size).sum

/-- `os.path.getsize`: `none` models the `OSError` raised when the path
cannot be stat-ed (for example a broken symlink). -/
def FS.getsize (fs : FS) (q : List String) : Option Nat :=
  match FS.resolve fs linkFuel q with
  | some (_, Entry.file c) => some (strBytes c)
  | some (_, Entry.dir n) => some n
  | some (_, Entry.special n) => some n
  | _ => none

/-- Canonical (symlink-resolved) form of a path, as `os.path.realpath`
computes it. -/
def FS.realpath (fs : FS) (q : List String) : List String :=
  match FS.resolve fs linkFuel q with
  | some (q2, _) => q2
  | none => q

/-- `os.listdir`: names of the immediate entries of `q`, in the (model)
enumeration order of the filesystem map. -/
def FS.listdir (fs : FS) (q : List String) : List String :=
  (fs.map Prod.fst).filterMap (fun r =>
    match r.reverse with
    | [] => none
    | name :: revInit => if revInit.reverse = q then some name else none)

/-- Overwrite or insert an entry. -/
def FS.insert (fs : FS) (q : List String) (e : Entry) : FS :=
  (q, e) :: fs.filter (fun kv => decide (kv.1 ≠ q))

/-- `os.makedirs(q, exist_ok=True)`, by fuel on the path depth: create the
missing ancestors of `q` and `q` itself as directories; error if an
existing component is not a directory.  (On failure Python may leave some
already-created ancestors behind; no claim exercises that corner, and the
model returns the error alone.) -/
def FS.makedirs (fs : FS) : Nat → List String → Except String FS
  | 0, _ => Except.error "recursion limit"
  | fuel + 1, q =>
    if FS.isdir fs q then Except.ok fs
    else if FS.existsb fs q then Except.error "FileExistsError"
    else if q = [] then Except.ok (FS.insert fs [] (Entry.dir 4096))
    else
      match FS.makedirs fs fuel q.dropLast with
      | Except.error e => Except.error e
      | Except.ok fs1 => Except.ok (FS.insert fs1 q (Entry.dir 4096))

/-- `os.makedirs` with enough fuel for the whole path. -/
def pymakedirs (fs : FS) (q : List String) : Except String FS :=
  FS.makedirs fs (q.length + 1) q

/-- `open(path, "w")` followed by `write(content)`: follows an existing
(link to a) file and overwrites its target, errors on a directory, creates
the file when the path does not exist and its parent is a directory.
(Creation through a dangling symlink is not modelled.) -/
def FS.openWrite (fs : FS) (q : List String) (content : String) : Except String FS :=
  match FS.resolve fs linkFuel q with
  | some (_, Entry.dir _) => Except.error "IsADirectoryError"
  | some (q2, _) => Except.ok (FS.insert fs q2 (Entry.file content))
  | none =>
    match q.reverse with
    | [] => Except.error "IsADirectoryError"
    | _ :: revInit =>
      if FS.isdir fs revInit.reverse then Except.ok (FS.insert fs q (Entry.file content))
      else Except.error "FileNotFoundError"

/-- Python `str.strip()` on the underlying character list. -/
def stripList (l : List Char) : List Char :=
  ((l.dropWhile Char.isWhitespace).reverse.dropWhile Char.isWhitespace).reverse

/-- Python `str.strip()`. -/
def pyStrip (s : String) : String :=
  String.mk (stripList s.data)

/-- The `result += line + "\n"` accumulation loop of `get_files`. -/
def joinLines (lines : List String) : String :=
  lines.foldl (fun acc l => acc ++ l ++ "\n") ""

/-- Python `"\n".join(parts)`. -/
def nlJoin : List String → String
  | [] => ""
  | [l] => l
  | l :: l2 :: ls => l ++ "\n" ++ nlJoin (l2 :: ls)

/-- The `is_dir` flag printed by `get_files`: `os.path.isfile` is checked
first, then `os.path.isdir`; anything else is reported as `Unknown`. -/
def flagOf (fs : FS) (q : List String) : String :=
  if FS.isfile fs q then "False"
  else if FS.isdir fs q then "True"
  else "Unknown"

/-- One line of the `get_files` listing. -/
def fileLine (item : String) (sz : Nat) (flag : String) : String :=
  item ++ ": file_size: " ++ toString sz ++ " bytes, is_dir=" ++ flag

/-- Body of the `get_files` enumeration loop: one line per entry; a stat
failure (broken symlink) raises, modelled as `Except.error`, discarding the
partial listing. -/
def linesFor (fs : FS) (full : List String) : List String → Except String (List String)
  | [] => Except.ok []
  | item :: rest =>
    match FS.getsize fs (full ++ [item]) with
    | none =>
      Except.error ("[Errno 2] No such file or directory: " ++ renderAbs (full ++ [item]))
    | some sz =>
      match linesFor fs full rest with
      | Except.error e => Except.error e
      | Except.ok ls => Except.ok (fileLine item sz (flagOf fs (full ++ [item])) :: ls)

/-- The lines `get_files` would print for directory `full`. -/
def get_files_lines (fs : FS) (full : List String) : Except String (List String) :=
  linesFor fs full (FS.listdir fs full)

/-- `get_files(work_directory, directory=".")` from
`src/functions/functions.py`. -/
def get_files (wd : List String) (dir : PyPath) (fs : FS) : String :=
  let full := normJoin wd dir
  if ¬ inWorkDir wd full then
    "Error: " ++ renderPath dir ++ " is outside the work directory"
  else if ¬ FS.isdir fs full then
    "Error: " ++ renderPath dir ++ " is not a valid directory"
  else
    match get_files_lines fs full with
    | Except.ok lines => pyStrip (joinLines lines)
    | Except.error e => "Error listing files: " ++ e

/-- `get_file_content(work_directory, file_path)`; `maxChars` is the
environment-supplied `FILE_CHARACTER_LIMIT` (`max_chars` in the source).
`f.read(max_chars)` reads the first `max_chars` characters, while
`os.path.getsize` measures bytes. -/
def get_file_content (maxChars : Nat) (wd : List String) (fp : PyPath) (fs : FS) : String :=
  let target := normJoin wd fp
  if ¬ inWorkDir wd target then
    "Error: Cannot read " ++ renderPath fp ++ " because it is outside the work directory"
  else if ¬ FS.isfile fs target then
    "File not found or is not a normal file: " ++ renderPath fp
  else
    match FS.resolve fs linkFuel target with
    | some (_, Entry.file c) =>
      let content := String.mk (c.data.take maxChars)
      if strBytes c > maxChars then
        content ++ ("...File " ++ renderPath fp ++ " truncated at " ++
          toString maxChars ++ " characters.")
      else content
    | _ => "Error reading file " ++ renderPath fp

/-- `write_file(work_directory, file_path, content)`: returns the reported
message and the filesystem after the call. -/
def write_file (wd : List String) (fp : PyPath) (content : String) (fs : FS) : String × FS :=
  let target := normJoin wd fp
  if ¬ inWorkDir wd target then
    ("Error: Cannot write to " ++ renderPath fp ++ " because it is outside the work directory", fs)
  else
    match (if ¬ FS.existsb fs target then pymakedirs fs target.dropLast else Except.ok fs) with
    | Except.error e => ("Error: creating directory " ++ e, fs)
    | Except.ok fs1 =>
      if FS.existsb fs1 target && FS.isdir fs1 target then
        ("Error: " ++ renderPath fp ++ " is a directory, not a file", fs1)
      else
        match FS.openWrite fs1 target content with
        | Except.ok fs2 =>
          ("Successfully wrote to file: " ++ renderPath fp ++ ", " ++
            toString content.length ++ " characters.", fs2)
        | Except.error e => ("Error writing to file " ++ renderPath fp ++ ": " ++ e, fs1)

/-- `os.path.splitext(base)[1]` for the basename `base`: the suffix from
the last dot, except that leading dots of the basename never start an
extension. -/
def pySplitextExt (base : String) : String :=
  match base.data.reverse.span (fun c => c != '.') with
  | (revExt, '.' :: before) =>
    if before.any (fun c => c != '.') then String.mk ('.' :: revExt.reverse) else ""
  | _ => ""

/-- `os.path.splitext(file_path)[1]`: the extension of the final
component. -/
def pathExt (p : PyPath) : String :=
  pySplitextExt (p.comps.getLastD "")

/-- Record of a spawned subprocess: what is observable to the OS. -/
structure Spawn where
  command : List String
  cwd : List String
  deriving DecidableEq, Repr

/-- Behaviour of a process that actually runs. -/
inductive ProcOutcome
  | completed (stdout stderr : String) (returncode : Int)
  | timedOut
  deriving Repr

/-- The machine: what happens when a given command is spawned in a given
working directory. -/
def ProcOracle : Type := List String → List String → ProcOutcome

/-- `subprocess.run(command, capture_output=..., text=True, stdout=...,
stderr=..., timeout=..., cwd=...)`.  Per the CPython implementation (and
its documentation), passing `capture_output=True` together with explicit
`stdout` or `stderr` raises `ValueError` before any process is created; a
timeout kills the child and raises `TimeoutExpired`. -/
def subprocess_run (proc : ProcOracle) (command : List String)
    (captureOutput stdoutPipe stderrPipe : Bool) (timeoutSec : Nat) (cwd : List String) :
    Except String (String × String × Int) × Option Spawn :=
  if captureOutput && (stdoutPipe || stderrPipe) then
    (Except.error "stdout and stderr arguments may not be used with capture_output.", none)
  else
    match proc command cwd with
    | ProcOutcome.completed o e c => (Except.ok (o, e, c), some ⟨command, cwd⟩)
    | ProcOutcome.timedOut =>
      (Except.error ("Command timed out after " ++ toString timeoutSec ++ " seconds"),
        some ⟨command, cwd⟩)

/-- Result of `run_python_file`: the returned string plus the record of any
process spawned during the call. -/
structure RunPyResult where
  output : String
  spawned : Option Spawn
  deriving DecidableEq, Repr

/-- `run_python_file(work_directory, file_path, args=None)`. -/
def run_python_file (proc : ProcOracle) (wd : List String) (fp : PyPath)
    (args : List String) (fs : FS) : RunPyResult :=
  let target := normJoin wd fp
  if ¬ inWorkDir wd target then
    ⟨"Error: Cannot run " ++ renderPath fp ++ " because it is outside the work directory", none⟩
  else if ¬ FS.existsb fs target then
    ⟨"File not found: " ++ renderPath fp, none⟩
  else if pathExt fp ≠ ".py" then
    ⟨"Error: " ++ renderPath fp ++ " is not a Python file", none⟩
  else
    match subprocess_run proc (["python", renderAbs target] ++ args) true true true 30 wd with
    | (Except.error e, sp) =>
      ⟨"Error running python file " ++ renderPath fp ++ ": " ++ e, sp⟩
    | (Except.ok (out, err, code), sp) =>
      let parts :=
        (if out ≠ "" then ["STDOUT:\n" ++ out] else []) ++
        (if err ≠ "" then ["STDERR:\n" ++ err] else []) ++
        (if code ≠ 0 then ["Process exited with code " ++ toString code] else [])
      ⟨if parts ≠ [] then nlJoin parts else "Python file executed successfully with no output.", sp⟩

/-- A value in the untyped argument bag of a tool call (JSON strings in
reality; path-valued strings are carried in component form, lists of
strings for `args`). -/
inductive PyVal
  | vpath (p : PyPath)
  | vstr (s : String)
  | vlist (xs : List String)
  deriving DecidableEq, Repr

/-- A `function_call_part`: the tool name and the argument mapping as
provided by the model (`args` can be `None`). -/
structure FunctionCallPart where
  name : String
  args : Option (List (String × PyVal))
  deriving DecidableEq, Repr

/-- One `types.Part.from_function_response(name, response)`; the response
dict is a list of key/value pairs. -/
structure RespPart where
  name : String
  response : List (String × String)
  deriving DecidableEq, Repr

/-- A `types.Content`. -/
structure GContent where
  role : String
  parts : List RespPart
  deriving DecidableEq, Repr

/-- A Python exception escaping the dispatcher. -/
inductive PyExn
  | typeError (msg : String)
  deriving DecidableEq, Repr

/-- A successfully bound call of one of the four registered tools. -/
inductive BoundCall
  | files (dir : PyPath)
  | readf (fp : PyPath)
  | writef (fp : PyPath) (content : String)
  | runpy (fp : PyPath) (args : List String)
  deriving DecidableEq, Repr

/-- Dictionary lookup in the argument bag. -/
def getArg (as : List (String × PyVal)) (k : String) : Option PyVal :=
  (List.find? (fun kv => decide (kv.1 = k)) as).map Prod.snd

/-- All supplied keyword names are among the allowed parameter names. -/
def keysOk (as : List (String × PyVal)) (allowed : List String) : Bool :=
  as.all (fun kv => allowed.contains kv.1)

/-- Keyword binding of `fn(**args)` for each registered tool (the injected
`work_directory` is passed separately): a missing required parameter, an
unexpected keyword, or a value of the wrong shape raises `TypeError` at the
invocation, which the dispatcher does not catch.  Only invoked for names in
the function map, where the final branch is `run_python_file`. -/
def bindCall (name : String) (as : List (String × PyVal)) : Except PyExn BoundCall :=
  if name = "get_files_info" then
    if keysOk as ["directory"] then
      match getArg as "directory" with
      | none => Except.ok (BoundCall.files ⟨false, ["."]⟩)
      | some (PyVal.vpath p) => Except.ok (BoundCall.files p)
      | some _ => Except.error (PyExn.typeError "get_files: directory must be a string")
    else Except.error (PyExn.typeError "get_files got an unexpected keyword argument")
  else if name = "get_file_content" then
    if keysOk as ["file_path"] then
      match getArg as "file_path" with
      | some (PyVal.vpath p) => Except.ok (BoundCall.readf p)
      | some _ => Except.error (PyExn.typeError "get_file_content: file_path must be a string")
      | none =>
        Except.error (PyExn.typeError
          "get_file_content missing 1 required positional argument: file_path")
    else Except.error (PyExn.typeError "get_file_content got an unexpected keyword argument")
  else if name = "write_file" then
    if keysOk as ["file_path", "content"] then
      match getArg as "file_path", getArg as "content" with
      | some (PyVal.vpath p), some (PyVal.vstr c) => Except.ok (BoundCall.writef p c)
      | none, _ =>
        Except.error (PyExn.typeError
          "write_file missing 1 required positional argument: file_path")
      | _, none =>
        Except.error (PyExn.typeError
          "write_file missing 1 required positional argument: content")
      | _, _ => Except.error (PyExn.typeError "write_file: bad argument shape")
    else Except.error (PyExn.typeError "write_file got an unexpected keyword argument")
  else
    if keysOk as ["file_path", "args"] then
      match getArg as "file_path", getArg as "args" with
      | some (PyVal.vpath p), none => Except.ok (BoundCall.runpy p [])
      | some (PyVal.vpath p), some (PyVal.vlist xs) => Except.ok (BoundCall.runpy p xs)
      | none, _ =>
        Except.error (PyExn.typeError
          "run_python_file missing 1 required positional argument: file_path")
      | _, _ => Except.error (PyExn.typeError "run_python_file: bad argument shape")
    else Except.error (PyExn.typeError "run_python_file got an unexpected keyword argument")

/-- The keys of the `function_map` in `call_function`. -/
def knownToolNames : List String :=
  ["get_files_info", "get_file_content", "write_file", "run_python_file"]

/-- The `role="function"` content returned for an unknown tool name. -/
def unknownContent (name : String) : GContent :=
  ⟨"function", [⟨name, [("error", "Unknown function: " ++ name)]⟩]⟩

/-- The `role="tool"` content wrapping a string implementation result as
`{"output": result}`. -/
def toolContent (name result : String) : GContent :=
  ⟨"tool", [⟨name, [("output", result)]⟩]⟩

/-- `call_function(function_call_part, verbose=False)`, the dispatcher.
Besides the `types.Content` result it returns the filesystem after the
call and a record of any spawned process; an uncaught Python exception is
`Except.error`.  `wd` is the environment value injected as
`args["work_directory"]` (any caller-supplied `work_directory` key is
overwritten). -/
def call_function (wd : List String) (maxChars : Nat) (proc : ProcOracle)
    (fs : FS) (fc : FunctionCallPart) : Except PyExn (GContent × FS × Option Spawn) :=
  if ¬ knownToolNames.contains fc.name then
    Except.ok (unknownContent fc.name, fs, none)
  else
    match fc.args with
    | none => Except.error (PyExn.typeError "argument of type NoneType is not iterable")
    | some as =>
      match bindCall fc.name (as.filter (fun kv => decide (kv.1 ≠ "work_directory"))) with
      | Except.error e => Except.error e
      | Except.ok (BoundCall.files d) =>
        Except.ok (toolContent fc.name (get_files wd d fs), fs, none)
      | Except.ok (BoundCall.readf p) =>
        Except.ok (toolContent fc.name (get_file_content maxChars wd p fs), fs, none)
      | Except.ok (BoundCall.writef p c) =>
        Except.ok (toolContent fc.name (write_file wd p c fs).1, (write_file wd p c fs).2, none)
      | Except.ok (BoundCall.runpy p xs) =>
        Except.ok (toolContent fc.name (run_python_file proc wd p xs fs).output, fs,
          (run_python_file proc wd p xs fs).spawned)

/-- A model response: contents to append to the history, the `text`
property (`none` or `""` are falsy), and the `function_calls` property. -/
structure ModelResponse where
  candidates : List GContent
  text : Option String
  function_calls : List FunctionCallPart

/-- Outcome of one `client.models.generate_content` call: a response or a
raised exception. -/
inductive ServiceReply
  | ok (resp : ModelResponse)
  | exn (msg : String)

/-- Termination state of `run_agent_loop`: final text printed and loop
broken; an exception caught (service failure or a dispatch exception) and
loop broken; or the `for ... else` branch after `max_iterations`. -/
inductive LoopOutcome
  | completed (text : String)
  | errored (msg : String)
  | maxIters
  deriving DecidableEq, Repr

/-- The external model service: given the number of calls made so far and
the conversation history, return a reply. -/
def ModelOracle : Type := Nat → List GContent → ServiceReply

/-- Python truthiness of `model_response.text`. -/
def truthyText : Option String → Bool
  | some s => s != ""
  | none => false

/-- `str(exc)` for a dispatcher exception. -/
def renderExn : PyExn → String
  | PyExn.typeError m => m

/-- Sequential dispatch of the tool calls of one response (the inner
`for function_call in model_response.function_calls` loop); the first
uncaught exception aborts the whole iteration. -/
def dispatchAll (wd : List String) (maxChars : Nat) (proc : ProcOracle) :
    FS → List FunctionCallPart → Except PyExn (List GContent × FS)
  | fs, [] => Except.ok ([], fs)
  | fs, fc :: rest =>
    match call_function wd maxChars proc fs fc with
    | Except.error e => Except.error e
    | Except.ok (c, fs1, _) =>
      match dispatchAll wd maxChars proc fs1 rest with
      | Except.error e => Except.error e
      | Except.ok (cs, fs2) => Except.ok (c :: cs, fs2)

/-- `run_agent_loop` from `src/main.py`: returns the termination state and
the number of model-service calls made.  (`main.py` imports the dispatcher
under the name `dispatch_tool_call`, which `functions.py` does not define;
it is modelled by `call_function`, the dispatcher the repository defines,
matching spec section 4.3.) -/
def run_agent_loop (oracle : ModelOracle) (wd : List String) (maxChars : Nat)
    (proc : ProcOracle) : Nat → List GContent → Nat → FS → LoopOutcome × Nat
  | 0, _, calls, _ => (LoopOutcome.maxIters, calls)
  | fuel + 1, hist, calls, fs =>
    match oracle calls hist with
    | ServiceReply.exn m => (LoopOutcome.errored ("Error during generation: " ++ m), calls + 1)
    | ServiceReply.ok resp =>
      if truthyText resp.text then
        (LoopOutcome.completed (resp.text.getD ""), calls + 1)
      else
        match dispatchAll wd maxChars proc fs resp.function_calls with
        | Except.error e =>
          (LoopOutcome.errored ("Error during generation: " ++ renderExn e), calls + 1)
        | Except.ok (newTurns, fs1) =>
          run_agent_loop oracle wd maxChars proc fuel ((hist ++ resp.candidates) ++ newTurns)
            (calls + 1) fs1

/-- `Except` success as a boolean. -/
def exOk {α : Type} : Except PyExn α → Bool
  | Except.ok _ => true
  | Except.error _ => false

/-- A reply that neither finishes (no truthy text) nor fails (the service
call returned, and handling its tool calls raises no exception). -/
def stallReply (wd : List String) (maxChars : Nat) (proc : ProcOracle) (fs : FS) :
    ServiceReply → Bool
  | ServiceReply.exn _ => false
  | ServiceReply.ok resp =>
    !truthyText resp.text && exOk (dispatchAll wd maxChars proc fs resp.function_calls)

/-- Head of a character list is present and not whitespace. -/
def headNonWSL : List Char → Bool
  | [] => false
  | c :: _ => !c.isWhitespace

/-- First character of a string is present and not whitespace
(`str.strip()` then cannot touch the front of the string). -/
def headNonWS (l : String) : Bool :=
  headNonWSL l.data

/-- Last character of a string is present and not whitespace. -/
def lastNonWS (l : String) : Bool :=
  headNonWSL l.data.reverse

/-- Remove trailing whitespace from a character list. -/
def stripEndList (l : List Char) : List Char :=
  (l.reverse.dropWhile Char.isWhitespace).reverse

/-- The line `get_files` prints for entry `item` of directory `full`
(size `0` is a dummy for the `getD`; an entry reaching this rendering
always has a defined size). -/
def entryLine (fs : FS) (full : List String) (item : String) : String :=
  fileLine item ((FS.getsize fs (full ++ [item])).getD 0) (flagOf fs (full ++ [item]))

/-- A machine on which every spawned process completes silently. -/
def procNull : ProcOracle := fun _ _ => ProcOutcome.completed "" "" 0

/-- A machine on which every spawned process runs past the timeout. -/
def procHang : ProcOracle := fun _ _ => ProcOutcome.timedOut

/-- Sandbox containing a symlink that escapes to `/etc/passwd`. -/
def fsLink : FS :=
  [(["sandbox"], Entry.dir 4096),
   (["sandbox", "link"], Entry.symlink ["etc", "passwd"]),
   (["etc"], Entry.dir 4096),
   (["etc", "passwd"], Entry.file "root:x:0:0")]

/-- Sandbox containing a symlink that escapes to a home directory. -/
def fsEsc : FS :=
  [(["sandbox"], Entry.dir 4096),
   (["sandbox", "esc"], Entry.symlink ["home", "victim"]),
   (["home"], Entry.dir 4096),
   (["home", "victim"], Entry.dir 4096)]

/-- Sandbox with a 4-character, 8-byte UTF-8 file. -/
def fsTrunc : FS :=
  [(["sb"], Entry.dir 4096), (["sb", "data.txt"], Entry.file "éééé")]

/-- Sandbox with a small ASCII file. -/
def fsHello : FS :=
  [(["sb"], Entry.dir 4096), (["sb", "h.txt"], Entry.file "hello")]

/-- Sandbox with a valid Python script. -/
def fsRunPy : FS :=
  [(["sb"], Entry.dir 4096), (["sb", "main.py"], Entry.file "print(1)")]

/-- Sandbox with a Python script that would spin forever. -/
def fsLoop : FS :=
  [(["sb"], Entry.dir 4096), (["sb", "loop.py"], Entry.file "while True: pass")]

/-- Sandbox with a non-Python text file. -/
def fsNotes : FS :=
  [(["sb"], Entry.dir 4096), (["sb", "notes.txt"], Entry.file "x")]

/-- Sandbox with one subdirectory (whose `st_size` is the usual 4096). -/
def fsDirSize : FS :=
  [(["sb"], Entry.dir 4096), (["sb", "sub"], Entry.dir 4096)]

/-- Sandbox with a subdirectory and a file. -/
def fsDirList : FS :=
  [(["sb"], Entry.dir 4096),
   (["sb", "sub"], Entry.dir 4096),
   (["sb", "f.txt"], Entry.file "hi")]

/-- Sandbox containing a broken symlink. -/
def fsGhost : FS :=
  [(["sb"], Entry.dir 4096), (["sb", "ghost"], Entry.symlink ["nowhere"])]

/-- Sandbox containing a special file (device node of size 0). -/
def fsSpec : FS :=
  [(["sb"], Entry.dir 4096), (["sb", "dev0"], Entry.special 0)]

/-- Empty sandbox used for write/read round trips. -/
def fsEmptySb : FS := [(["sb"], Entry.dir 4096)]

/-- The lines of a string, split on newline (Python `str.splitlines` up to
the final-newline convention, which does not matter here). -/
def pyLines (s : String) : List String :=
  (s.data.splitOn (Char.ofNat 10)).map (fun l => String.mk l)

lemma commonpath2_eq_iff (a b : List String) :
    commonpath2 a b = b ↔ ∃ t, b ++ t = a := by
  induction b generalizing a with
  | nil =>
    cases a <;> simp [commonpath2]
  | cons x bs ih =>
    cases a with
    | nil =>
      simp [commonpath2]
    | cons y as =>
      by_cases hxy : y = x
      · subst hxy
        simp [commonpath2, ih]
      · simp only [commonpath2, if_neg hxy]
        constructor
        · intro h
          exact absurd h (by simp)
        · rintro ⟨t, ht⟩
          exact absurd (List.cons.inj ht).1 (fun h => hxy h.symm)

lemma inWorkDir_iff (wd target : List String) :
    inWorkDir wd target = true ↔ ∃ t, wd ++ t = target := by
  rw [inWorkDir, decide_eq_true_eq, commonpath2_eq_iff]

lemma FS.lookup_insert_self (fs : FS) (q : List String) (e : Entry) :
    FS.lookup (FS.insert fs q e) q = some e := by
  simp [FS.lookup, FS.insert, List.find?]

lemma FS.lookup_insert_ne (fs : FS) (q r : List String) (e : Entry) (h : r ≠ q) :
    FS.lookup (FS.insert fs q e) r = FS.lookup fs r := by
  have hq : q ≠ r := fun hh => h hh.symm
  have hpred : (fun a : List String × Entry => !decide (a.1 = q) && decide (a.1 = r))
      = (fun kv : List String × Entry => decide (kv.1 = r)) := by
    funext kv
    by_cases hr : kv.1 = r
    · have hkq : ¬ kv.1 = q := by rw [hr]; exact h
      simp [hr, hkq, h]
    · simp [hr]
  simp [FS.lookup, FS.insert, List.find?, hq, hpred]

lemma linkFuel_succ : linkFuel = 39 + 1 := rfl

lemma FS.resolve_lookup_none (fs : FS) (q : List String) (fuel : Nat)
    (h : FS.lookup fs q = none) : FS.resolve fs fuel q = none := by
  cases fuel with
  | zero => rfl
  | succ n => simp [FS.resolve, h]

lemma FS.resolve_insert_file (fs : FS) (q : List String) (c : String) :
    FS.resolve (FS.insert fs q (Entry.file c)) linkFuel q = some (q, Entry.file c) := by
  rw [linkFuel_succ]
  simp [FS.resolve, FS.lookup_insert_self]

lemma FS.isdir_insert_dir (fs : FS) (q : List String) (n : Nat) :
    FS.isdir (FS.insert fs q (Entry.dir n)) q = true := by
  rw [FS.isdir, linkFuel_succ]
  simp [FS.resolve, FS.lookup_insert_self]

lemma FS.makedirs_ok_isdir (fs : FS) (fuel : Nat) (q : List String) (fs1 : FS)
    (h : FS.makedirs fs fuel q = Except.ok fs1) : FS.isdir fs1 q = true := by
  cases fuel with
  | zero => exact absurd h (by simp [FS.makedirs])
  | succ n =>
    rw [FS.makedirs] at h
    by_cases h1 : FS.isdir fs q = true
    · rw [if_pos h1] at h
      cases h
      exact h1
    · rw [if_neg h1] at h
      by_cases h2 : FS.existsb fs q = true
      · rw [if_pos h2] at h
        exact absurd h (by simp)
      · rw [if_neg h2] at h
        by_cases h3 : q = []
        · rw [if_pos h3] at h
          cases h
          subst h3
          exact FS.isdir_insert_dir fs [] 4096
        · rw [if_neg h3] at h
          cases hrec : FS.makedirs fs n q.dropLast with
          | error e => rw [hrec] at h; exact absurd h (by simp)
          | ok fs2 =>
            rw [hrec] at h
            cases h
            exact FS.isdir_insert_dir fs2 q 4096

lemma FS.makedirs_lookup_longer (fuel : Nat) :
    ∀ (fs fs1 : FS) (q r : List String), FS.makedirs fs fuel q = Except.ok fs1 →
      q.length < r.length → FS.lookup fs1 r = FS.lookup fs r := by
  induction fuel with
  | zero => intro fs fs1 q r h _; exact absurd h (by simp [FS.makedirs])
  | succ n ih =>
    intro fs fs1 q r h hlen
    rw [FS.makedirs] at h
    by_cases h1 : FS.isdir fs q = true
    · rw [if_pos h1] at h; cases h; rfl
    · rw [if_neg h1] at h
      by_cases h2 : FS.existsb fs q = true
      · rw [if_pos h2] at h; exact absurd h (by simp)
      · rw [if_neg h2] at h
        have hrq : r ≠ q := by
          intro hh
          subst hh
          exact Nat.lt_irrefl _ hlen
        by_cases h3 : q = []
        · rw [if_pos h3] at h
          cases h
          subst h3
          exact FS.lookup_insert_ne fs [] r (Entry.dir 4096) hrq
        · rw [if_neg h3] at h
          cases hrec : FS.makedirs fs n q.dropLast with
          | error e => rw [hrec] at h; exact absurd h (by simp)
          | ok fs2 =>
            rw [hrec] at h
            cases h
            have hd : q.dropLast.length < r.length := by
              have := List.length_dropLast q
              omega
            rw [FS.lookup_insert_ne fs2 q r (Entry.dir 4096) hrq]
            exact ih fs fs2 q.dropLast r hrec hd

lemma length_le_utf8sum (l : List Char) : l.length ≤ (l.map Char.utf8Size).sum := by
  induction l with
  | nil => simp
  | cons c cs ih =>
    have := Char.utf8Size_pos c
    simp only [List.length_cons, List.map_cons, List.sum_cons]
    omega

lemma length_le_strBytes (s : String) : s.data.length ≤ strBytes s :=
  length_le_utf8sum s.data

lemma take_all_of_strBytes_le (s : String) (n : Nat) (h : strBytes s ≤ n) :
    String.mk (s.data.take n) = s := by
  have h1 : s.data.length ≤ n := le_trans (length_le_strBytes s) h
  rw [List.take_of_length_le h1]

lemma empty_data : ("" : String).data = [] := rfl

lemma newline_data : ("\n" : String).data = ['\n'] := rfl

lemma linesFor_ok_map (fs : FS) (full : List String) :
    ∀ (l lines : List String), linesFor fs full l = Except.ok lines →
      lines = l.map (entryLine fs full) := by
  intro l
  induction l with
  | nil =>
    intro lines h
    simp [linesFor] at h
    subst h
    simp
  | cons item rest ih =>
    intro lines h
    rw [linesFor] at h
    cases hsz : FS.getsize fs (full ++ [item]) with
    | none => rw [hsz] at h; exact absurd h (by simp)
    | some sz =>
      rw [hsz] at h
      cases hrec : linesFor fs full rest with
      | error e => rw [hrec] at h; exact absurd h (by simp)
      | ok ls =>
        rw [hrec] at h
        simp only [Except.ok.injEq] at h
        subst h
        simp [List.map_cons, entryLine, hsz, ih ls hrec]

lemma listdir_entry_eq (q a : List String) (name : String)
    (h : name ∈ (match a.reverse with
      | [] => (none : Option String)
      | n :: revInit => if revInit.reverse = q then some n else none)) :
    a = q ++ [name] := by
  cases hra : a.reverse with
  | nil => rw [hra] at h; simp at h
  | cons n ri =>
    rw [hra] at h
    dsimp only at h
    by_cases hq : ri.reverse = q
    · rw [if_pos hq] at h
      have hn : n = name := by simpa using h
      have ha2 : a = (n :: ri).reverse := by rw [← hra, List.reverse_reverse]
      rw [ha2, List.reverse_cons, hq, hn]
    · rw [if_neg hq] at h; simp at h

lemma listdir_nodup (fs : FS) (q : List String) (h0 : (fs.map Prod.fst).Nodup) :
    (FS.listdir fs q).Nodup := by
  rw [FS.listdir]
  apply h0.filterMap
  intro a b name ha hb
  rw [listdir_entry_eq q a name ha, listdir_entry_eq q b name hb]

lemma joinLines_go (acc : String) (lines : List String) :
    (lines.foldl (fun a l => a ++ l ++ "\n") acc).data
      = acc.data ++ (lines.map (fun l => l.data ++ ['\n'])).flatten := by
  induction lines generalizing acc with
  | nil => simp
  | cons l ls ih =>
    simp only [List.foldl_cons, List.map_cons, List.flatten_cons]
    rw [ih]
    simp [String.data_append, newline_data, List.append_assoc]

lemma joinLines_data (lines : List String) :
    (joinLines lines).data = (lines.map (fun l => l.data ++ ['\n'])).flatten := by
  have h := joinLines_go "" lines
  simpa [joinLines, empty_data] using h

lemma stripList_eq (l : List Char) :
    stripList l = stripEndList (l.dropWhile Char.isWhitespace) := rfl

lemma stripEndList_append (A B : List Char) (h : stripEndList B ≠ []) :
    stripEndList (A ++ B) = A ++ stripEndList B := by
  rw [stripEndList, List.reverse_append, List.dropWhile_append]
  have h2 : (B.reverse.dropWhile Char.isWhitespace).isEmpty = false := by
    rw [stripEndList] at h
    cases hb : B.reverse.dropWhile Char.isWhitespace with
    | nil => rw [hb] at h; simp at h
    | cons c cs => simp [hb]
  rw [h2]
  simp [stripEndList, List.reverse_append]

lemma nlJoin_ne_nil_data (l : String) (ls : List String) (h : l.data ≠ []) :
    (nlJoin (l :: ls)).data ≠ [] := by
  cases ls with
  | nil => simpa [nlJoin]
  | cons l2 ls2 => simp [nlJoin, String.data_append, newline_data]

lemma stripEnd_flatten (lines : List String)
    (h : ∀ l ∈ lines, lastNonWS l = true) :
    stripEndList ((lines.map (fun l => l.data ++ ['\n'])).flatten) = (nlJoin lines).data := by
  induction lines with
  | nil => simp [stripEndList, nlJoin, empty_data]
  | cons l ls ih =>
    cases ls with
    | nil =>
      have hl := h l (by simp)
      rw [lastNonWS] at hl
      cases hrev : l.data.reverse with
      | nil => rw [hrev] at hl; simp [headNonWSL] at hl
      | cons c cs =>
        rw [hrev] at hl
        simp only [headNonWSL, Bool.not_eq_eq_eq_not, Bool.not_true] at hl
        simp only [List.map_cons, List.map_nil, List.flatten_cons, List.flatten_nil,
          List.append_nil, nlJoin]
        have hrw : (l.data ++ ['\n']).reverse = '\n' :: l.data.reverse := by simp
        rw [stripEndList, hrw]
        have hnl : ('\n').isWhitespace = true := by decide
        rw [List.dropWhile_cons, if_pos hnl, hrev, List.dropWhile_cons,
          if_neg (by simp [hl])]
        have h3 := congrArg List.reverse hrev
        rw [List.reverse_reverse] at h3
        exact h3.symm
    | cons l2 ls2 =>
      have ih2 := ih (fun x hx => h x (by simp [hx]))
      have hl2 := h l2 (by simp)
      rw [lastNonWS] at hl2
      have hd2 : l2.data ≠ [] := by
        cases hd : l2.data with
        | nil => rw [hd] at hl2; simp [headNonWSL] at hl2
        | cons d ds => simp [hd]
      have hne : stripEndList (((l2 :: ls2).map (fun l => l.data ++ ['\n'])).flatten) ≠ [] := by
        rw [ih2]
        exact nlJoin_ne_nil_data l2 ls2 hd2
      rw [List.map_cons, List.flatten_cons, stripEndList_append _ _ hne, ih2]
      show l.data ++ ['\n'] ++ (nlJoin (l2 :: ls2)).data = (nlJoin (l :: l2 :: ls2)).data
      rw [show nlJoin (l :: l2 :: ls2) = l ++ "\n" ++ nlJoin (l2 :: ls2) from rfl]
      simp [String.data_append, newline_data, List.append_assoc]

lemma pyStrip_joinLines (lines : List String)
    (h : ∀ l ∈ lines, headNonWS l = true ∧ lastNonWS l = true) :
    pyStrip (joinLines lines) = nlJoin lines := by
  cases lines with
  | nil => rfl
  | cons l ls =>
    have hstrip : stripList (joinLines (l :: ls)).data = (nlJoin (l :: ls)).data := by
      rw [joinLines_data, stripList_eq]
      have hl := (h l (by simp)).1
      rw [headNonWS] at hl
      cases hld : l.data with
      | nil => rw [hld] at hl; simp [headNonWSL] at hl
      | cons c cs =>
        rw [hld] at hl
        simp only [headNonWSL, Bool.not_eq_eq_eq_not, Bool.not_true] at hl
        have hfront : (((l :: ls).map (fun s => s.data ++ ['\n'])).flatten).dropWhile
            Char.isWhitespace = ((l :: ls).map (fun s => s.data ++ ['\n'])).flatten := by
          rw [List.map_cons, List.flatten_cons, hld, List.cons_append, List.cons_append,
            List.dropWhile_cons, if_neg (by simp [hl])]
        rw [hfront]
        exact stripEnd_flatten (l :: ls) (fun x hx => (h x hx).2)
    rw [pyStrip, hstrip]

lemma headNonWS_append (s t : String) (h : headNonWS s = true) :
    headNonWS (s ++ t) = true := by
  rw [headNonWS] at *
  cases hs : s.data with
  | nil => rw [hs] at h; simp [headNonWSL] at h
  | cons c cs =>
    rw [hs] at h
    rw [String.data_append, hs, List.cons_append]
    exact h

lemma headNonWS_fileLine (item : String) (sz : Nat) (flag : String)
    (h : headNonWS item = true) : headNonWS (fileLine item sz flag) = true := by
  rw [fileLine]
  exact headNonWS_append _ _ (headNonWS_append _ _ (headNonWS_append _ _
    (headNonWS_append _ _ h)))

lemma lastNonWS_append (s t : String) (h : lastNonWS t = true) :
    lastNonWS (s ++ t) = true := by
  rw [lastNonWS] at *
  rw [String.data_append, List.reverse_append]
  cases ht : t.data.reverse with
  | nil => rw [ht] at h; simp [headNonWSL] at h
  | cons c cs =>
    rw [ht] at h
    rw [List.cons_append]
    exact h

lemma lastNonWS_flagOf (fs : FS) (q : List String) : lastNonWS (flagOf fs q) = true := by
  rw [flagOf]
  by_cases h1 : FS.isfile fs q = true
  · rw [if_pos h1]; decide
  · rw [if_neg h1]
    by_cases h2 : FS.isdir fs q = true
    · rw [if_pos h2]; decide
    · rw [if_neg h2]; decide

lemma lastNonWS_fileLine (item : String) (sz : Nat) (fs : FS) (q : List String) :
    lastNonWS (fileLine item sz (flagOf fs q)) = true := by
  rw [fileLine]
  exact lastNonWS_append _ _ (lastNonWS_flagOf fs q)

lemma run_agent_loop_stall (oracle : ModelOracle) (wd : List String) (mc : Nat)
    (proc : ProcOracle)
    (hstall : ∀ i h g, stallReply wd mc proc g (oracle i h) = true) :
    ∀ (n : Nat) (hist : List GContent) (calls : Nat) (fs : FS),
      run_agent_loop oracle wd mc proc n hist calls fs = (LoopOutcome.maxIters, calls + n) := by
  intro n
  induction n with
  | zero => intro hist calls fs; simp [run_agent_loop]
  | succ n ih =>
    intro hist calls fs
    have h1 := hstall calls hist fs
    rw [run_agent_loop]
    cases hrep : oracle calls hist with
    | exn m => rw [hrep] at h1; simp [stallReply] at h1
    | ok resp =>
      rw [hrep] at h1
      simp only [stallReply, Bool.and_eq_true, Bool.not_eq_eq_eq_not, Bool.not_true] at h1
      obtain ⟨ht, hd⟩ := h1
      dsimp only
      rw [ht]
      simp only [Bool.false_eq_true, if_false]
      cases hdis : dispatchAll wd mc proc fs resp.function_calls with
      | error e => rw [hdis] at hd; simp [exOk] at hd
      | ok pr =>
        obtain ⟨nt, fs1⟩ := pr
        dsimp only
        rw [ih]
        simp only [Prod.mk.injEq, true_and]
        omega

/-- C1 (corrected): when the normalized (but not symlink-resolved)
resolution of the caller-supplied relative path escapes the boundary root,
each of the four tools returns its containment error before any I/O: the
result is the same for every filesystem state, `write_file` returns the
filesystem unchanged, and `run_python_file` spawns no process.  The claim
as stated, with "canonical resolution" being the symlink-resolved
resolution the spec defines, fails on the code: see `c1_counterexample`. -/
theorem c1_containment_precheck (wd : List String) (p : PyPath) (content : String)
    (args : List String) (mc : Nat) (proc : ProcOracle)
    (h : inWorkDir wd (normJoin wd p) = false) :
    (∀ fs : FS, get_files wd p fs
        = "Error: " ++ renderPath p ++ " is outside the work directory") ∧
    (∀ fs : FS, get_file_content mc wd p fs
        = "Error: Cannot read " ++ renderPath p ++ " because it is outside the work directory") ∧
    (∀ fs : FS, write_file wd p content fs
        = ("Error: Cannot write to " ++ renderPath p ++
            " because it is outside the work directory", fs)) ∧
    (∀ fs : FS, run_python_file proc wd p args fs
        = ⟨"Error: Cannot run " ++ renderPath p ++
            " because it is outside the work directory", none⟩) := by
  refine ⟨fun fs => ?_, fun fs => ?_, fun fs => ?_, fun fs => ?_⟩
  · simp [get_files, h]
  · simp [get_file_content, h]
  · simp [write_file, h]
  · simp [run_python_file, h]

/-- Witness for `c1_containment_precheck` at the spec example: root
`/sandbox`, path `../secret.txt`, on the empty filesystem. -/
theorem c1_containment_precheck_witness :
    get_file_content 10 ["sandbox"] ⟨false, ["..", "secret.txt"]⟩ []
      = "Error: Cannot read ../secret.txt because it is outside the work directory" := by
  have h := (c1_containment_precheck ["sandbox"] ⟨false, ["..", "secret.txt"]⟩ "" [] 10 procNull
    (by decide)).2.1 []
  rw [h]
  decide

/-- C1 counterexample: in `fsLink` the path `link` resolves canonically
(symlink-resolved) to `/etc/passwd`, escaping the root `/sandbox`, yet
`get_file_content` returns the secret file content instead of the
containment error: `os.path.abspath` does not resolve symlinks. -/
theorem c1_counterexample :
    inWorkDir ["sandbox"] (FS.realpath fsLink (normJoin ["sandbox"] ⟨false, ["link"]⟩)) = false ∧
    get_file_content 100 ["sandbox"] ⟨false, ["link"]⟩ fsLink = "root:x:0:0" ∧
    "root:x:0:0" ≠ "Error: Cannot read link because it is outside the work directory" :=
  ⟨by decide, by decide, by decide⟩

/-- C8 (corrected): the containment check accepts a target iff it equals
the boundary root or is a component-wise descendant of it under the
normalized (`os.path.abspath` + `os.path.commonpath`) comparison; a
sibling path sharing only a string prefix with the root (`/data` vs
`/data2`) is rejected, because `commonpath` compares whole components.
The comparison is not symlink-resolved: see `c8_counterexample`. -/
theorem c8_containment_characterization (wd : List String) (p : PyPath) :
    (inWorkDir wd (normJoin wd p) = true ↔
      (normJoin wd p = wd ∨ ∃ rest, rest ≠ [] ∧ normJoin wd p = wd ++ rest)) ∧
    inWorkDir ["data"] (normJoin ["data"] ⟨false, ["..", "data2"]⟩) = false := by
  constructor
  · rw [inWorkDir_iff]
    constructor
    · rintro ⟨t, ht⟩
      cases t with
      | nil => left; rw [← ht, List.append_nil]
      | cons x ts => right; exact ⟨x :: ts, by simp, ht.symm⟩
    · rintro (h | ⟨rest, hne, hr⟩)
      · exact ⟨[], by rw [List.append_nil, h]⟩
      · exact ⟨rest, hr.symm⟩
  · decide

/-- C8 counterexample: in `fsEsc` the path `esc` is accepted by the
containment check although its symlink-resolved form `/home/victim`
escapes the root `/sandbox`, refuting the claimed "accept iff contained
under canonical, symlink-resolved comparison". -/
theorem c8_counterexample :
    inWorkDir ["sandbox"] (normJoin ["sandbox"] ⟨false, ["esc"]⟩) = true ∧
    inWorkDir ["sandbox"] (FS.realpath fsEsc (normJoin ["sandbox"] ⟨false, ["esc"]⟩)) = false :=
  ⟨by decide, by decide⟩

/-- C5 (code bug): `run_python_file` on a contained existing `.py` file
never runs it: the `subprocess.run` call passes `capture_output=True`
together with explicit `stdout`/`stderr` pipes, which CPython rejects with
`ValueError` before creating any process, so for every machine behaviour
and every argument list the tool returns that error and spawns nothing —
it never reports stdout, stderr or an exit code. -/
theorem c5_run_python_never_spawns :
    ∀ (proc : ProcOracle) (args : List String),
      run_python_file proc ["sb"] ⟨false, ["main.py"]⟩ args fsRunPy
        = ⟨"Error running python file main.py: stdout and stderr arguments may not be used with capture_output.",
            none⟩ := by
  intro proc args
  rfl

/-- C6 (code bug): the non-`.py` rejection does happen with no subprocess
created (first conjunct), but the timeout branch is unreachable: even on a
machine where the spawned script would exceed the 30-second timeout, the
conflicting `subprocess.run` arguments fail the call before any spawn, so
no timeout is ever reported (second conjunct). -/
theorem c6_extension_reject_timeout_unreachable :
    (∀ (proc : ProcOracle) (args : List String),
        run_python_file proc ["sb"] ⟨false, ["notes.txt"]⟩ args fsNotes
          = ⟨"Error: notes.txt is not a Python file", none⟩) ∧
    run_python_file procHang ["sb"] ⟨false, ["loop.py"]⟩ [] fsLoop
      = ⟨"Error running python file loop.py: stdout and stderr arguments may not be used with capture_output.",
          none⟩ :=
  ⟨fun _ _ => rfl, rfl⟩

/-- C2 (corrected): dispatch on an unknown tool name returns the
well-formed single-key `{"error": ...}` response without touching the
filesystem or the machine; a registered tool whose arguments bind returns
a single-key `{"output": ...}` response; but the dispatcher catches no
exceptions: a binding failure of the invocation (or `args = None`)
propagates to the caller as a raised exception instead of being converted
to an error response. -/
theorem c2_dispatch_contract (wd : List String) (mc : Nat) (proc : ProcOracle)
    (fs : FS) (fc : FunctionCallPart) :
    (¬ knownToolNames.contains fc.name = true →
        call_function wd mc proc fs fc = Except.ok (unknownContent fc.name, fs, none)) ∧
    (∀ as bc, fc.args = some as → knownToolNames.contains fc.name = true →
        bindCall fc.name (as.filter (fun kv => decide (kv.1 ≠ "work_directory")))
          = Except.ok bc →
        ∃ s fs2 sp, call_function wd mc proc fs fc
          = Except.ok (⟨"tool", [⟨fc.name, [("output", s)]⟩]⟩, fs2, sp)) ∧
    (∀ as e, fc.args = some as → knownToolNames.contains fc.name = true →
        bindCall fc.name (as.filter (fun kv => decide (kv.1 ≠ "work_directory")))
          = Except.error e →
        call_function wd mc proc fs fc = Except.error e) ∧
    (fc.args = none → knownToolNames.contains fc.name = true →
        call_function wd mc proc fs fc
          = Except.error (PyExn.typeError "argument of type NoneType is not iterable")) := by
  refine ⟨?_, ?_, ?_, ?_⟩
  · intro h
    rw [call_function, if_pos h]
  · intro as bc has hk hb
    rw [call_function, if_neg (by simpa using hk), has]
    dsimp only
    rw [hb]
    cases bc with
    | files d => exact ⟨_, fs, none, rfl⟩
    | readf q => exact ⟨_, fs, none, rfl⟩
    | writef q c => exact ⟨_, _, none, rfl⟩
    | runpy q xs => exact ⟨_, fs, _, rfl⟩
  · intro as e has hk hb
    rw [call_function, if_neg (by simpa using hk), has]
    dsimp only
    rw [hb]
  · intro ha hk
    rw [call_function, if_neg (by simpa using hk), ha]

/-- Witness for `c2_dispatch_contract`: an unknown tool name yields the
structured error content. -/
theorem c2_dispatch_contract_witness :
    call_function ["sb"] 5 procNull [] ⟨"bogus", none⟩
      = Except.ok (unknownContent "bogus", [], none) :=
  (c2_dispatch_contract ["sb"] 5 procNull [] ⟨"bogus", none⟩).1 (by decide)

/-- C2 counterexample: invoking a registered tool with an argument bag
missing the required `file_path` raises `TypeError` at the invocation;
`call_function` has no `try`/`except`, so the exception propagates instead
of becoming an `{"error": ...}` tool result. -/
theorem c2_counterexample :
    call_function ["sb"] 5 procNull fsRunPy ⟨"get_file_content", some []⟩
      = Except.error (PyExn.typeError
          "get_file_content missing 1 required positional argument: file_path") := by
  rfl

/-- C4 (confirmed): if every model reply during the run neither carries
truthy finished text nor fails (the service call returns and dispatching
its tool calls raises nothing), `run_agent_loop` makes exactly
`max_iterations` model-service calls and ends in the budget-exhausted
state, which is a different constructor from both `Completed` and the
service-error abort. -/
theorem c4_budget_exhaustion (oracle : ModelOracle) (wd : List String) (mc : Nat)
    (proc : ProcOracle) (maxIterations : Nat) (hist : List GContent) (fs : FS)
    (hstall : ∀ i h g, stallReply wd mc proc g (oracle i h) = true) :
    run_agent_loop oracle wd mc proc maxIterations hist 0 fs
      = (LoopOutcome.maxIters, maxIterations) ∧
    (∀ s, (LoopOutcome.maxIters : LoopOutcome) ≠ LoopOutcome.completed s) ∧
    (∀ m, (LoopOutcome.maxIters : LoopOutcome) ≠ LoopOutcome.errored m) := by
  refine ⟨?_, fun s hq => LoopOutcome.noConfusion hq, fun m hq => LoopOutcome.noConfusion hq⟩
  have h := run_agent_loop_stall oracle wd mc proc hstall maxIterations hist 0 fs
  simpa using h

/-- Witness for `c4_budget_exhaustion`: a model that always replies with
no text and no tool calls drives a 5-iteration loop to the
budget-exhausted state after exactly 5 calls. -/
theorem c4_budget_exhaustion_witness :
    run_agent_loop (fun _ _ => ServiceReply.ok ⟨[], none, []⟩) ["sb"] 100 procNull 5 [] 0 []
      = (LoopOutcome.maxIters, 5) :=
  (c4_budget_exhaustion (fun _ _ => ServiceReply.ok ⟨[], none, []⟩) ["sb"] 100 procNull 5 [] []
    (fun _ _ _ => rfl)).1

lemma get_file_content_le (mc : Nat) (wd : List String) (p : PyPath) (fs : FS)
    (q : List String) (c : String)
    (h1 : inWorkDir wd (normJoin wd p) = true)
    (hres : FS.resolve fs linkFuel (normJoin wd p) = some (q, Entry.file c))
    (hb : strBytes c ≤ mc) :
    get_file_content mc wd p fs = c := by
  have hf : FS.isfile fs (normJoin wd p) = true := by
    rw [FS.isfile, hres]
  rw [get_file_content]
  dsimp only
  rw [if_neg (by simp [h1]), if_neg (by simp [hf]), hres]
  dsimp only
  rw [if_neg (by omega)]
  exact take_all_of_strBytes_le c mc hb

lemma write_file_fresh (wd : List String) (p : PyPath) (content : String) (fs fs1 : FS)
    (h1 : inWorkDir wd (normJoin wd p) = true)
    (hnone : FS.lookup fs (normJoin wd p) = none)
    (hmk : pymakedirs fs (normJoin wd p).dropLast = Except.ok fs1)
    (hTne : normJoin wd p ≠ []) :
    write_file wd p content fs
      = ("Successfully wrote to file: " ++ renderPath p ++ ", " ++
          toString content.length ++ " characters.",
         FS.insert fs1 (normJoin wd p) (Entry.file content)) := by
  have hex : FS.existsb fs (normJoin wd p) = false := by
    rw [FS.existsb, FS.resolve_lookup_none fs _ linkFuel hnone]
    rfl
  have hlook1 : FS.lookup fs1 (normJoin wd p) = FS.lookup fs (normJoin wd p) := by
    apply FS.makedirs_lookup_longer ((normJoin wd p).dropLast.length + 1) fs fs1 _ _ hmk
    have h0 : 0 < (normJoin wd p).length := List.length_pos.mpr hTne
    have h2 := List.length_dropLast (normJoin wd p)
    omega
  have hlook1n : FS.lookup fs1 (normJoin wd p) = none := by rw [hlook1, hnone]
  have hex1 : FS.existsb fs1 (normJoin wd p) = false := by
    rw [FS.existsb, FS.resolve_lookup_none fs1 _ linkFuel hlook1n]
    rfl
  have hdir1 : FS.isdir fs1 (normJoin wd p).dropLast = true :=
    FS.makedirs_ok_isdir fs _ _ fs1 hmk
  have how : FS.openWrite fs1 (normJoin wd p) content
      = Except.ok (FS.insert fs1 (normJoin wd p) (Entry.file content)) := by
    rw [FS.openWrite, FS.resolve_lookup_none fs1 _ linkFuel hlook1n]
    cases hTr : (normJoin wd p).reverse with
    | nil =>
      exfalso
      apply hTne
      have h := congrArg List.reverse hTr
      simpa using h
    | cons c0 rev =>
      dsimp only
      have hrd : rev.reverse = (normJoin wd p).dropLast := by
        have hT := congrArg List.reverse hTr
        rw [List.reverse_reverse, List.reverse_cons] at hT
        rw [hT, List.dropLast_concat]
      have hcond : FS.isdir fs1 rev.reverse = true := by rw [hrd]; exact hdir1
      rw [if_pos hcond]
  rw [write_file]
  rw [if_neg (by simp [h1]), if_pos (by simp [hex]), hmk]
  dsimp only
  rw [if_neg (by simp [hex1]), how]

lemma write_file_overwrite (wd : List String) (p : PyPath) (content old : String) (fs : FS)
    (h1 : inWorkDir wd (normJoin wd p) = true)
    (hsome : FS.lookup fs (normJoin wd p) = some (Entry.file old)) :
    write_file wd p content fs
      = ("Successfully wrote to file: " ++ renderPath p ++ ", " ++
          toString content.length ++ " characters.",
         FS.insert fs (normJoin wd p) (Entry.file content)) := by
  have hres : FS.resolve fs linkFuel (normJoin wd p)
      = some (normJoin wd p, Entry.file old) := by
    rw [linkFuel_succ]
    simp [FS.resolve, hsome]
  have hex : FS.existsb fs (normJoin wd p) = true := by
    rw [FS.existsb, hres]
    rfl
  have hdirF : FS.isdir fs (normJoin wd p) = false := by
    rw [FS.isdir, hres]
  have how : FS.openWrite fs (normJoin wd p) content
      = Except.ok (FS.insert fs (normJoin wd p) (Entry.file content)) := by
    rw [FS.openWrite, hres]
  rw [write_file]
  rw [if_neg (by simp [h1]), if_neg (by simp [hex])]
  dsimp only
  rw [if_neg (by simp [hdirF]), how]

/-- C3 (corrected): reading a contained regular file whose byte size is at
most the cap returns its exact content unmodified; when the byte size
exceeds the cap the result is the first `cap` *characters* of the content
followed by the truncation marker naming the cap — which is exactly `cap`
characters only when the file has at least `cap` characters (third
conjunct; always true for single-byte encodings), because
`os.path.getsize` counts bytes while `f.read(max_chars)` counts
characters.  The claim as stated fails on multi-byte UTF-8 files: see
`c3_counterexample`. -/
theorem c3_read_cap (mc : Nat) (wd : List String) (p : PyPath) (fs : FS)
    (q : List String) (c : String)
    (h1 : inWorkDir wd (normJoin wd p) = true)
    (h2 : FS.resolve fs linkFuel (normJoin wd p) = some (q, Entry.file c)) :
    (strBytes c ≤ mc → get_file_content mc wd p fs = c) ∧
    (strBytes c > mc →
        get_file_content mc wd p fs
          = String.mk (c.data.take mc) ++
            ("...File " ++ renderPath p ++ " truncated at " ++ toString mc ++ " characters.")) ∧
    (mc ≤ c.data.length → (String.mk (c.data.take mc)).length = mc) := by
  refine ⟨fun hb => get_file_content_le mc wd p fs q c h1 h2 hb, fun hgt => ?_, fun hlen => ?_⟩
  · have hf : FS.isfile fs (normJoin wd p) = true := by
      rw [FS.isfile, h2]
    rw [get_file_content]
    dsimp only
    rw [if_neg (by simp [h1]), if_neg (by simp [hf]), h2]
    dsimp only
    rw [if_pos hgt]
  · show (c.data.take mc).length = mc
    rw [List.length_take]
    omega

/-- Witness for `c3_read_cap`: a 5-byte ASCII file read with cap 10 comes
back exactly. -/
theorem c3_read_cap_witness :
    get_file_content 10 ["sb"] ⟨false, ["h.txt"]⟩ fsHello = "hello" :=
  (c3_read_cap 10 ["sb"] ⟨false, ["h.txt"]⟩ fsHello ["sb", "h.txt"] "hello"
    (by decide) (by decide)).1 (by decide)

/-- C3 counterexample: with cap 5 and the 4-character, 8-byte file
`éééé`, the returned value is the whole 4-character content followed by
the marker — there is no 5-character prefix before the marker, refuting
"exactly cap characters followed by a truncation marker". -/
theorem c3_counterexample :
    strBytes "éééé" > 5 ∧
    get_file_content 5 ["sb"] ⟨false, ["data.txt"]⟩ fsTrunc
      = "éééé" ++ "...File data.txt truncated at 5 characters." ∧
    ¬ ∃ s : String, s.length = 5 ∧
        "éééé" ++ "...File data.txt truncated at 5 characters."
          = s ++ "...File data.txt truncated at 5 characters." := by
  refine ⟨by decide, by decide, ?_⟩
  rintro ⟨s, hl, he⟩
  have hlen := congrArg String.length he
  rw [String.length_append, String.length_append, hl] at hlen
  have h4 : ("éééé" : String).length = 4 := by decide
  rw [h4] at hlen
  omega

/-- C9 (corrected): a successful `write_file` of `content` to a contained
path — a fresh path whose missing parents `os.makedirs` can create, or an
existing regular file — reports the path and the character count written,
and a subsequent `get_file_content` on the same path returns `content`
unchanged provided the *UTF-8 byte length* of `content` is at most the
cap.  With only the claimed character-length bound the round trip fails:
see `c9_counterexample`. -/
theorem c9_write_read_roundtrip (mc : Nat) (wd : List String) (p : PyPath)
    (content : String) (fs : FS)
    (hwd : wd ≠ [])
    (h1 : inWorkDir wd (normJoin wd p) = true)
    (hb : strBytes content ≤ mc)
    (h3 : (FS.lookup fs (normJoin wd p) = none ∧
            ∃ fs1, pymakedirs fs (normJoin wd p).dropLast = Except.ok fs1) ∨
          (∃ old, FS.lookup fs (normJoin wd p) = some (Entry.file old))) :
    (write_file wd p content fs).1
      = "Successfully wrote to file: " ++ renderPath p ++ ", " ++
        toString content.length ++ " characters." ∧
    get_file_content mc wd p (write_file wd p content fs).2 = content := by
  have hTne : normJoin wd p ≠ [] := by
    obtain ⟨t, ht⟩ := (inWorkDir_iff wd (normJoin wd p)).mp h1
    intro h0
    rw [h0] at ht
    exact hwd (List.append_eq_nil.mp ht).1
  cases h3 with
  | inl h =>
    obtain ⟨hnone, fs1, hmk⟩ := h
    have hwf := write_file_fresh wd p content fs fs1 h1 hnone hmk hTne
    rw [hwf]
    refine ⟨rfl, ?_⟩
    exact get_file_content_le mc wd p _ (normJoin wd p) content h1
      (FS.resolve_insert_file fs1 (normJoin wd p) content) hb
  | inr h =>
    obtain ⟨old, hsome⟩ := h
    have hwf := write_file_overwrite wd p content old fs h1 hsome
    rw [hwf]
    refine ⟨rfl, ?_⟩
    exact get_file_content_le mc wd p _ (normJoin wd p) content h1
      (FS.resolve_insert_file fs (normJoin wd p) content) hb

/-- Witness for `c9_write_read_roundtrip`: writing `hello` to a fresh
`b.txt` in `/sb` and reading it back with cap 100. -/
theorem c9_write_read_roundtrip_witness :
    (write_file ["sb"] ⟨false, ["b.txt"]⟩ "hello" fsEmptySb).1
      = "Successfully wrote to file: b.txt, 5 characters." ∧
    get_file_content 100 ["sb"] ⟨false, ["b.txt"]⟩
      (write_file ["sb"] ⟨false, ["b.txt"]⟩ "hello" fsEmptySb).2 = "hello" := by
  have h := c9_write_read_roundtrip 100 ["sb"] ⟨false, ["b.txt"]⟩ "hello" fsEmptySb
    (by decide) (by decide) (by decide) (Or.inl ⟨by decide, ⟨fsEmptySb, rfl⟩⟩)
  refine ⟨?_, h.2⟩
  rw [h.1]
  decide

/-- C9 counterexample: the 4-character content `éééé` satisfies the
claimed length bound for cap 5 and is written successfully, but reading it
back appends the truncation marker because its UTF-8 byte length is 8 >
5, so the round trip does not return the written content. -/
theorem c9_counterexample :
    ("éééé" : String).length ≤ 5 ∧
    (write_file ["sb"] ⟨false, ["a.txt"]⟩ "éééé" fsEmptySb).1
      = "Successfully wrote to file: a.txt, 4 characters." ∧
    get_file_content 5 ["sb"] ⟨false, ["a.txt"]⟩
        (write_file ["sb"] ⟨false, ["a.txt"]⟩ "éééé" fsEmptySb).2
      = "éééé...File a.txt truncated at 5 characters." ∧
    "éééé...File a.txt truncated at 5 characters." ≠ "éééé" :=
  ⟨by decide, by decide, by decide, by decide⟩

/-- C7 (corrected): for a contained, existing directory whose enumeration
succeeds (and whose entry paths are distinct and entry names do not begin
with whitespace), `get_files` reports each immediate entry exactly once,
one line per entry in the deterministic enumeration order of the
filesystem map, joined by newlines; the `is_dir` flag follows
`os.path.isfile`/`os.path.isdir`, and the reported size is the entry's
`os.path.getsize` value — for a directory that is its `st_size`
(typically 4096), not zero: see `c7_counterexample`. -/
theorem c7_listing_correct (wd : List String) (p : PyPath) (fs : FS) (lines : List String)
    (h0 : (fs.map Prod.fst).Nodup)
    (h1 : inWorkDir wd (normJoin wd p) = true)
    (h2 : FS.isdir fs (normJoin wd p) = true)
    (h3 : get_files_lines fs (normJoin wd p) = Except.ok lines)
    (h4 : ∀ item ∈ FS.listdir fs (normJoin wd p), headNonWS item = true) :
    (FS.listdir fs (normJoin wd p)).Nodup ∧
    lines = (FS.listdir fs (normJoin wd p)).map (entryLine fs (normJoin wd p)) ∧
    get_files wd p fs = nlJoin lines := by
  have hmap := linesFor_ok_map fs (normJoin wd p) (FS.listdir fs (normJoin wd p)) lines h3
  refine ⟨listdir_nodup fs (normJoin wd p) h0, hmap, ?_⟩
  have hg : get_files wd p fs = pyStrip (joinLines lines) := by
    rw [get_files]
    rw [if_neg (by simp [h1]), if_neg (by simp [h2]), h3]
  rw [hg]
  apply pyStrip_joinLines
  intro l hl
  rw [hmap] at hl
  obtain ⟨item, hitem, rfl⟩ := List.mem_map.mp hl
  constructor
  · rw [entryLine]
    exact headNonWS_fileLine item _ _ (h4 item hitem)
  · rw [entryLine]
    exact lastNonWS_fileLine item _ fs _

/-- Witness for `c7_listing_correct`: listing `/sb` containing a
subdirectory and a 2-byte file. -/
theorem c7_listing_correct_witness :
    get_files ["sb"] ⟨false, ["."]⟩ fsDirList
      = "sub: file_size: 4096 bytes, is_dir=True\nf.txt: file_size: 2 bytes, is_dir=False" := by
  have h := (c7_listing_correct ["sb"] ⟨false, ["."]⟩ fsDirList
    ["sub: file_size: 4096 bytes, is_dir=True", "f.txt: file_size: 2 bytes, is_dir=False"]
    (by decide) (by decide) (by decide) (by rfl) (by decide)).2.2
  rw [h]
  decide

/-- C7 counterexample: a subdirectory with the usual `st_size` 4096 is
reported with size 4096, not the claimed zero, because line 42 of
`functions.py` prints `os.path.getsize` for directories too. -/
theorem c7_counterexample :
    get_files ["sb"] ⟨false, ["."]⟩ fsDirSize = "sub: file_size: 4096 bytes, is_dir=True" ∧
    "sub: file_size: 4096 bytes, is_dir=True" ≠ "sub: file_size: 0 bytes, is_dir=True" :=
  ⟨by decide, by decide⟩

/-- C10 (corrected): an immediate entry that is neither a regular file nor
a directory but can still be stat-ed (a special file) is listed with
`is_dir=Unknown` and its reported size, provided the whole enumeration
succeeds; but when the size of some entry cannot be retrieved — a broken
symlink — `os.path.getsize` raises, the partial listing is discarded and
`get_files` returns an error with no listing at all: see
`c10_counterexample`. -/
theorem c10_special_entries_listed (wd : List String) (p : PyPath) (fs : FS)
    (item : String) (sz : Nat) (q : List String) (lines : List String)
    (h1 : inWorkDir wd (normJoin wd p) = true)
    (h2 : FS.isdir fs (normJoin wd p) = true)
    (h3 : get_files_lines fs (normJoin wd p) = Except.ok lines)
    (h4 : item ∈ FS.listdir fs (normJoin wd p))
    (h5 : FS.resolve fs linkFuel (normJoin wd p ++ [item]) = some (q, Entry.special sz)) :
    (item ++ ": file_size: " ++ toString sz ++ " bytes, is_dir=Unknown") ∈ lines ∧
    get_files wd p fs = pyStrip (joinLines lines) := by
  have hmap := linesFor_ok_map fs (normJoin wd p) (FS.listdir fs (normJoin wd p)) lines h3
  constructor
  · have hsz : FS.getsize fs (normJoin wd p ++ [item]) = some sz := by
      rw [FS.getsize, h5]
    have hff : FS.isfile fs (normJoin wd p ++ [item]) = false := by
      rw [FS.isfile, h5]
    have hfd : FS.isdir fs (normJoin wd p ++ [item]) = false := by
      rw [FS.isdir, h5]
    have hline : entryLine fs (normJoin wd p) item
        = item ++ ": file_size: " ++ toString sz ++ " bytes, is_dir=Unknown" := by
      rw [entryLine, hsz, fileLine, flagOf, hff, hfd]
      simp only [Bool.false_eq_true, if_false, Option.getD_some]
      rw [String.append_assoc]
      exact congrArg (fun s => item ++ ": file_size: " ++ toString sz ++ s) (by decide)
    rw [hmap, ← hline]
    exact List.mem_map_of_mem (entryLine fs (normJoin wd p)) h4
  · rw [get_files]
    rw [if_neg (by simp [h1]), if_neg (by simp [h2]), h3]

/-- Witness for `c10_special_entries_listed`: a size-0 device node in
`/sb` is listed with `is_dir=Unknown`. -/
theorem c10_special_entries_listed_witness :
    ("dev0" ++ ": file_size: " ++ toString (0 : Nat) ++ " bytes, is_dir=Unknown")
      ∈ ["dev0: file_size: 0 bytes, is_dir=Unknown"] ∧
    get_files ["sb"] ⟨false, ["."]⟩ fsSpec
      = pyStrip (joinLines ["dev0: file_size: 0 bytes, is_dir=Unknown"]) :=
  c10_special_entries_listed ["sb"] ⟨false, ["."]⟩ fsSpec "dev0" 0 ["sb", "dev0"]
    ["dev0: file_size: 0 bytes, is_dir=Unknown"]
    (by decide) (by decide) (by rfl) (by decide) (by decide)

/-- C10 counterexample: with a broken symlink `ghost` in the sandbox,
`get_files` returns a single error string and no listing: no line of the
output reports the `ghost` entry with `is_dir=Unknown` for any size. -/
theorem c10_counterexample :
    get_files ["sb"] ⟨false, ["."]⟩ fsGhost
      = "Error listing files: [Errno 2] No such file or directory: /sb/ghost" ∧
    ¬ ∃ sz : Nat,
        ("ghost: file_size: " ++ toString sz ++ " bytes, is_dir=Unknown")
          ∈ pyLines (get_files ["sb"] ⟨false, ["."]⟩ fsGhost) := by
  refine ⟨by decide, ?_⟩
  rintro ⟨sz, hmem⟩
  have hg : get_files ["sb"] ⟨false, ["."]⟩ fsGhost
      = "Error listing files: [Errno 2] No such file or directory: /sb/ghost" := by decide
  rw [hg] at hmem
  have hsplit : pyLines "Error listing files: [Errno 2] No such file or directory: /sb/ghost"
      = ["Error listing files: [Errno 2] No such file or directory: /sb/ghost"] := by decide
  rw [hsplit] at hmem
  simp only [List.mem_singleton] at hmem
  have hd := congrArg String.data hmem
  rw [String.data_append, String.data_append] at hd
  have hgd : ("ghost: file_size: " : String).data
      = 'g' :: ("host: file_size: " : String).data := rfl
  have hed : ("Error listing files: [Errno 2] No such file or directory: /sb/ghost"
        : String).data
      = 'E' :: ("rror listing files: [Errno 2] No such file or directory: /sb/ghost"
        : String).data := rfl
  rw [hgd, hed, List.cons_append, List.cons_append] at hd
  exact absurd (List.cons.inj hd).1 (by decide)
